import Mathlib

/-!
# Verification of the ENGR robot controller communication and scheduling core

Shallow embedding of the inter-processor communication subsystem
(`esp32.cpp`, `FEHESP32.cpp`) and the Timer-4 tick scheduler
(`scheduler.cpp`) of the robot controller firmware, together with proofs
about the properties its specification states.

Machine integers (`uint8_t`, `uint16_t`, `uint32_t`) are modelled as `Nat`;
wherever a byte-sized quantity matters, theorems carry an explicit range
hypothesis (e.g. `data.length ≤ 255`) instead of a wrapped integer type.
Buffers are modelled as `List Nat` of byte values.
-/

/-! ## Tick scheduler (`scheduler.cpp`)

The event queue `eventData[0..numEventsPending)` is modelled as a
`List EventData` (the live prefix of the C array, in order).  The hardware
timer counter (`TCNT4` at mutation time, `OCR4A` in the ISR) appears as an
explicit `elapsed` parameter: the number of ticks that passed since the
timer was last programmed.  Callback function pointers are modelled as
opaque numeric identities.
-/

/-- `SCHEDULER_MAX_EVENTS` from `scheduler.cpp`. -/
abbrev SCHEDULER_MAX_EVENTS : Nat := 8

/-- `struct EventData { void (*callback)(); uint16_t ticks; }`. -/
structure EventData where
  callback : Nat
  ticks : Nat
deriving DecidableEq, Repr

/-- One entry of the elapsed-time subtraction loop shared by
`scheduleEvent`, `cancelEvents` and the Timer-4 ISR:
`if (ticks < elapsed) ticks = 0; else ticks -= elapsed;`.
The explicit guard is the source's defensive clamp against `uint16_t`
underflow. -/
def subElapsed (elapsed t : Nat) : Nat :=
  if t < elapsed then 0 else t - elapsed

/-- The "subtract time elapsed from all events" loop applied to the queue. -/
def elapsedSub (elapsed : Nat) (q : List EventData) : List EventData :=
  q.map (fun e => { e with ticks := subElapsed elapsed e.ticks })

/-- First clamping step at the top of `scheduleEvent`: compensate the
fixed setup latency by subtracting one tick from any request `≥ 1`. -/
def compensateTick (ticks : Nat) : Nat :=
  if 1 ≤ ticks then ticks - 1 else ticks

/-- Second clamping step of `scheduleEvent`: "You can't schedule 0-tick
events" — a zero result is forced up to the 1-tick minimum. -/
def clampTicks (ticks : Nat) : Nat :=
  if compensateTick ticks = 0 then 1 else compensateTick ticks

/-- The back-to-front insertion scan of `scheduleEvent`, acting on the
*reversed* queue: the C loop walks `i` from `numEventsPending - 1`
downward, shifting entries right `while eventData[i].ticks > ticks`, and
places the new event in the slot it opened. -/
def insertRevAux (e : EventData) : List EventData → List EventData
  | [] => [e]
  | x :: xs => if e.ticks < x.ticks then x :: insertRevAux e xs else e :: x :: xs

/-- Insertion of a new event into the queue, exactly as the back-scan of
`scheduleEvent` performs it (stable after existing entries with an equal
tick count). -/
def insertEvent (e : EventData) (q : List EventData) : List EventData :=
  (insertRevAux e q.reverse).reverse

/-- `scheduleEvent(callback, ticks)` from `scheduler.cpp`.  Returns the
success flag and the queue after the call.  `elapsed` is the value of
`TCNT4` when the timer is stopped for mutation.  Mirrors the source
order: clamp the delay, reject on a full queue *before* touching anything,
otherwise subtract elapsed time from the existing entries and insert. -/
def scheduleEvent (cb ticks elapsed : Nat) (q : List EventData) :
    Bool × List EventData :=
  if SCHEDULER_MAX_EVENTS ≤ q.length then (false, q)
  else (true, insertEvent ⟨cb, clampTicks ticks⟩ (elapsedSub elapsed q))

/-- The events the Timer-4 ISR pops and dispatches: after subtracting the
elapsed ticks (`OCR4A`), the ISR removes entries from the front
`while (eventData[0].ticks == 0 && numEventsPending > 0)`. -/
def isrFired (elapsed : Nat) (q : List EventData) : List EventData :=
  (elapsedSub elapsed q).takeWhile (fun e => e.ticks == 0)

/-- The queue left behind by the Timer-4 ISR dispatch loop (callbacks
themselves modelled as queue-neutral; a reschedule from inside a callback
is a separate `scheduleEvent` step). -/
def isrQueue (elapsed : Nat) (q : List EventData) : List EventData :=
  (elapsedSub elapsed q).dropWhile (fun e => e.ticks == 0)

/-- The removal phase of `cancelEvents`: the nested while loops delete
every entry whose callback matches, re-examining the entry that slides
into a freed slot before advancing. -/
def cancelRemove (cb : Nat) : List EventData → List EventData
  | [] => []
  | e :: es =>
    if e.callback = cb then cancelRemove cb es else e :: cancelRemove cb es

/-- `cancelEvents(callback)` from `scheduler.cpp`: subtract the elapsed
ticks (`TCNT4`) from every entry, then remove all entries with the given
callback. -/
def cancelEvents (cb elapsed : Nat) (q : List EventData) : List EventData :=
  cancelRemove cb (elapsedSub elapsed q)

/-- The queue invariant: remaining tick counts are ascending from front to
back. -/
def sortedByTicks (q : List EventData) : Prop :=
  List.Pairwise (fun a b => a.ticks ≤ b.ticks) q

instance (q : List EventData) : Decidable (sortedByTicks q) := by
  unfold sortedByTicks; infer_instance

/-! ### Scheduler lemmas -/

/-- The defensive clamp never lets a remaining tick count grow: the stored
value stays within the `uint16_t` range of the original. -/
theorem subElapsed_le (elapsed t : Nat) : subElapsed elapsed t ≤ t := by
  unfold subElapsed; split <;> omega

theorem subElapsed_mono {elapsed a b : Nat} (h : a ≤ b) :
    subElapsed elapsed a ≤ subElapsed elapsed b := by
  unfold subElapsed; split <;> split <;> omega

theorem elapsedSub_sorted {elapsed : Nat} {q : List EventData}
    (h : sortedByTicks q) : sortedByTicks (elapsedSub elapsed q) := by
  unfold sortedByTicks elapsedSub at *
  rw [List.pairwise_map]
  exact h.imp (fun hab => subElapsed_mono hab)

theorem length_elapsedSub (elapsed : Nat) (q : List EventData) :
    (elapsedSub elapsed q).length = q.length := by
  unfold elapsedSub; simp

theorem elapsedSub_zero (q : List EventData) : elapsedSub 0 q = q := by
  unfold elapsedSub subElapsed
  simp

theorem mem_insertRevAux {e y : EventData} : ∀ {l : List EventData},
    y ∈ insertRevAux e l → y = e ∨ y ∈ l := by
  intro l
  induction l with
  | nil => intro h; simp [insertRevAux] at h; exact Or.inl h
  | cons x xs ih =>
    intro h
    unfold insertRevAux at h
    split at h
    · rcases List.mem_cons.mp h with h1 | h2
      · exact Or.inr (by simp [h1])
      · rcases ih h2 with h3 | h4
        · exact Or.inl h3
        · exact Or.inr (List.mem_cons_of_mem _ h4)
    · rcases List.mem_cons.mp h with h1 | h2
      · exact Or.inl h1
      · exact Or.inr h2

theorem self_mem_insertRevAux (e : EventData) : ∀ (l : List EventData),
    e ∈ insertRevAux e l := by
  intro l
  induction l with
  | nil => simp [insertRevAux]
  | cons x xs ih =>
    unfold insertRevAux
    split
    · exact List.mem_cons_of_mem _ ih
    · exact List.mem_cons_self _ _

theorem insertRevAux_pairwise {e : EventData} : ∀ {l : List EventData},
    List.Pairwise (fun a b => b.ticks ≤ a.ticks) l →
    List.Pairwise (fun a b => b.ticks ≤ a.ticks) (insertRevAux e l) := by
  intro l
  induction l with
  | nil => intro _; simp [insertRevAux]
  | cons x xs ih =>
    intro h
    rcases List.pairwise_cons.mp h with ⟨hx, hxs⟩
    unfold insertRevAux
    split
    · rename_i hlt
      refine List.pairwise_cons.mpr ⟨?_, ih hxs⟩
      intro y hy
      rcases mem_insertRevAux hy with rfl | hmem
      · omega
      · exact hx y hmem
    · rename_i hnlt
      refine List.pairwise_cons.mpr ⟨?_, h⟩
      intro y hy
      rcases List.mem_cons.mp hy with rfl | hmem
      · omega
      · have := hx y hmem; omega

theorem insertEvent_sorted {e : EventData} {q : List EventData}
    (h : sortedByTicks q) : sortedByTicks (insertEvent e q) := by
  unfold sortedByTicks insertEvent at *
  rw [List.pairwise_reverse]
  exact insertRevAux_pairwise (List.pairwise_reverse.mpr h)

theorem length_insertRevAux (e : EventData) : ∀ (l : List EventData),
    (insertRevAux e l).length = l.length + 1 := by
  intro l
  induction l with
  | nil => rfl
  | cons x xs ih => unfold insertRevAux; split <;> simp [ih]

theorem length_insertEvent (e : EventData) (q : List EventData) :
    (insertEvent e q).length = q.length + 1 := by
  unfold insertEvent; simp [length_insertRevAux]

theorem mem_insertEvent_self (e : EventData) (q : List EventData) :
    e ∈ insertEvent e q := by
  unfold insertEvent
  rw [List.mem_reverse]
  exact self_mem_insertRevAux e q.reverse

theorem cancelRemove_eq_filter (cb : Nat) : ∀ (q : List EventData),
    cancelRemove cb q = q.filter (fun e => e.callback != cb) := by
  intro q
  induction q with
  | nil => rfl
  | cons e es ih =>
    unfold cancelRemove
    by_cases h : e.callback = cb
    · simp [h, ih, List.filter_cons]
    · simp [h, ih, List.filter_cons]

theorem clampTicks_pos (ticks : Nat) : 1 ≤ clampTicks ticks := by
  unfold clampTicks compensateTick
  split_ifs <;> omega

/-! ### Scheduler claims -/

/-- C5: with 8 events pending, `scheduleEvent` returns `false` and leaves
the queue — all entries, their callbacks, tick counts, order and the
pending count — completely unchanged; no entry is overwritten. -/
theorem scheduleEvent_full_rejects (cb ticks elapsed : Nat)
    (q : List EventData) (h : q.length = 8) :
    scheduleEvent cb ticks elapsed q = (false, q) := by
  unfold scheduleEvent
  rw [if_pos (show SCHEDULER_MAX_EVENTS ≤ q.length by
    simp only [SCHEDULER_MAX_EVENTS]; omega)]

/-- C5 witness: a concrete full queue of 8 entries is rejected intact. -/
theorem scheduleEvent_full_rejects_witness :
    ([⟨1, 1⟩, ⟨2, 2⟩, ⟨3, 3⟩, ⟨4, 4⟩, ⟨5, 5⟩, ⟨6, 6⟩, ⟨7, 7⟩, ⟨8, 8⟩] :
      List EventData).length = 8 ∧
    scheduleEvent 9 100 0
      [⟨1, 1⟩, ⟨2, 2⟩, ⟨3, 3⟩, ⟨4, 4⟩, ⟨5, 5⟩, ⟨6, 6⟩, ⟨7, 7⟩, ⟨8, 8⟩] =
      (false, [⟨1, 1⟩, ⟨2, 2⟩, ⟨3, 3⟩, ⟨4, 4⟩, ⟨5, 5⟩, ⟨6, 6⟩, ⟨7, 7⟩, ⟨8, 8⟩]) :=
  ⟨by decide,
   scheduleEvent_full_rejects 9 100 0
     [⟨1, 1⟩, ⟨2, 2⟩, ⟨3, 3⟩, ⟨4, 4⟩, ⟨5, 5⟩, ⟨6, 6⟩, ⟨7, 7⟩, ⟨8, 8⟩] (by decide)⟩

/-- C6: the queue invariant — entries sorted ascending by remaining tick
count and a pending count of at most 8 — is preserved by `scheduleEvent`
insertion, by `cancelEvents` removal, and by the Timer-4 ISR dispatch;
and the shared elapsed-tick subtraction clamps at zero, never letting a
remaining count grow (no `uint16_t` underflow wrap). -/
theorem scheduler_invariants_preserved (cb ticks elapsed : Nat)
    (q : List EventData) (hs : sortedByTicks q)
    (hlen : q.length ≤ SCHEDULER_MAX_EVENTS) :
    (sortedByTicks (scheduleEvent cb ticks elapsed q).2 ∧
      (scheduleEvent cb ticks elapsed q).2.length ≤ SCHEDULER_MAX_EVENTS) ∧
    (sortedByTicks (cancelEvents cb elapsed q) ∧
      (cancelEvents cb elapsed q).length ≤ SCHEDULER_MAX_EVENTS) ∧
    (sortedByTicks (isrQueue elapsed q) ∧
      (isrQueue elapsed q).length ≤ SCHEDULER_MAX_EVENTS) ∧
    (∀ t, subElapsed elapsed t ≤ t) := by
  refine ⟨?_, ⟨?_, ?_⟩, ⟨?_, ?_⟩, fun t => subElapsed_le elapsed t⟩
  · unfold scheduleEvent
    by_cases hfull : SCHEDULER_MAX_EVENTS ≤ q.length
    · rw [if_pos hfull]
      exact ⟨hs, hlen⟩
    · rw [if_neg hfull]
      refine ⟨insertEvent_sorted (elapsedSub_sorted hs), ?_⟩
      rw [length_insertEvent, length_elapsedSub]
      omega
  · unfold cancelEvents
    rw [cancelRemove_eq_filter]
    exact (elapsedSub_sorted hs).sublist (List.filter_sublist _)
  · unfold cancelEvents
    rw [cancelRemove_eq_filter]
    calc ((elapsedSub elapsed q).filter _).length
        ≤ (elapsedSub elapsed q).length := List.length_filter_le _ _
      _ = q.length := length_elapsedSub elapsed q
      _ ≤ SCHEDULER_MAX_EVENTS := hlen
  · unfold isrQueue
    exact (elapsedSub_sorted hs).sublist ((List.dropWhile_suffix _).sublist)
  · unfold isrQueue
    calc ((elapsedSub elapsed q).dropWhile _).length
        ≤ (elapsedSub elapsed q).length :=
          ((List.dropWhile_suffix _).sublist).length_le
      _ = q.length := length_elapsedSub elapsed q
      _ ≤ SCHEDULER_MAX_EVENTS := hlen

/-- C6 witness: the invariant conjunction instantiated on a concrete
sorted three-entry queue. -/
theorem scheduler_invariants_preserved_witness :
    sortedByTicks [⟨1, 3⟩, ⟨2, 7⟩, ⟨1, 9⟩] ∧
    ([⟨1, 3⟩, ⟨2, 7⟩, ⟨1, 9⟩] : List EventData).length ≤ SCHEDULER_MAX_EVENTS ∧
    sortedByTicks (scheduleEvent 5 6 2 [⟨1, 3⟩, ⟨2, 7⟩, ⟨1, 9⟩]).2 :=
  ⟨by decide, by decide,
   (scheduler_invariants_preserved 5 6 2 [⟨1, 3⟩, ⟨2, 7⟩, ⟨1, 9⟩]
     (by decide) (by decide)).1.1⟩

/-- C7: an accepted `scheduleEvent` stores a strictly positive remaining
tick count: a zero-tick request is stored as 1 tick, and any request
`d ≥ 1` is stored as `d - 1` ticks, clamped back up to 1 when that
subtraction yields 0. -/
theorem scheduleEvent_stores_positive (cb ticks elapsed : Nat)
    (q : List EventData) (h : q.length < SCHEDULER_MAX_EVENTS) :
    (scheduleEvent cb ticks elapsed q).1 = true ∧
    (⟨cb, clampTicks ticks⟩ : EventData) ∈ (scheduleEvent cb ticks elapsed q).2 ∧
    1 ≤ clampTicks ticks ∧
    clampTicks 0 = 1 ∧
    (1 ≤ ticks → clampTicks ticks = if ticks - 1 = 0 then 1 else ticks - 1) := by
  refine ⟨?_, ?_, clampTicks_pos ticks, by decide, ?_⟩
  · unfold scheduleEvent
    rw [if_neg (by omega)]
  · unfold scheduleEvent
    rw [if_neg (by omega)]
    exact mem_insertEvent_self _ _
  · intro h1
    unfold clampTicks compensateTick
    rw [if_pos h1]

/-- C7 witness: a zero-tick request on an empty queue is accepted and
stored with 1 remaining tick. -/
theorem scheduleEvent_stores_positive_witness :
    ([] : List EventData).length < SCHEDULER_MAX_EVENTS ∧
    (⟨4, clampTicks 0⟩ : EventData) ∈ (scheduleEvent 4 0 0 []).2 ∧
    clampTicks 0 = 1 :=
  ⟨by decide, (scheduleEvent_stores_positive 4 0 0 [] (by decide)).2.1,
   by decide⟩

/-- C8: `cancelEvents` removes exactly the entries whose callback matches
(consecutive duplicates included) and keeps every other entry in its
original relative order — it acts as a filter on the elapsed-adjusted
queue; and when nothing matches (and no timer ticks have elapsed), the
queue is returned unchanged. -/
theorem cancelEvents_removes_matching (cb elapsed : Nat)
    (q : List EventData) :
    cancelEvents cb elapsed q =
      (elapsedSub elapsed q).filter (fun e => e.callback != cb) ∧
    ((∀ e ∈ q, e.callback ≠ cb) → cancelEvents cb 0 q = q) := by
  constructor
  · unfold cancelEvents
    rw [cancelRemove_eq_filter]
  · intro hnone
    unfold cancelEvents
    rw [elapsedSub_zero, cancelRemove_eq_filter]
    apply List.filter_eq_self.mpr
    intro e he
    simpa using hnone e he

/-- C8 witness: cancelling callback 2 from a concrete queue removes its
consecutive duplicates and keeps the others in order; cancelling an
absent callback leaves the queue unchanged. -/
theorem cancelEvents_removes_matching_witness :
    cancelEvents 2 0 [⟨1, 3⟩, ⟨2, 5⟩, ⟨2, 5⟩, ⟨3, 9⟩] =
      [⟨1, 3⟩, ⟨3, 9⟩] ∧
    cancelEvents 7 0 [⟨1, 3⟩, ⟨2, 5⟩, ⟨2, 5⟩, ⟨3, 9⟩] =
      [⟨1, 3⟩, ⟨2, 5⟩, ⟨2, 5⟩, ⟨3, 9⟩] := by
  constructor
  · rw [(cancelEvents_removes_matching 2 0 [⟨1, 3⟩, ⟨2, 5⟩, ⟨2, 5⟩, ⟨3, 9⟩]).1]
    decide
  · exact (cancelEvents_removes_matching 7 0 [⟨1, 3⟩, ⟨2, 5⟩, ⟨2, 5⟩, ⟨3, 9⟩]).2
      (by decide)

/-! ## Transport layer (`esp32.cpp`)

SPI transfer buffers are `List Nat` of byte values.  `ESP32::sendCommand`
is modelled by the transmit frame it builds (`sendCommandTx`); the inbound
path `handleReceivedMessage` by the `(command, total length)` pair it
hands to the registered callback, `none` when the sync marker is absent.
`dataLen` is `data.length`; since the C parameter is a `uint8_t`, theorems
that depend on it carry the hypothesis `data.length ≤ 255`.
-/

/-- `UPDATER_PROTOCOL_SYNC_BYTE_1` (0xAA). -/
abbrev UPDATER_PROTOCOL_SYNC_BYTE_1 : Nat := 0xAA

/-- `UPDATER_PROTOCOL_SYNC_BYTE_2` (0x55). -/
abbrev UPDATER_PROTOCOL_SYNC_BYTE_2 : Nat := 0x55

/-- `UPDATER_PROTOCOL_HEADER_SIZE` (sync 2 + cmd 1 + length 1). -/
abbrev UPDATER_PROTOCOL_HEADER_SIZE : Nat := 4

/-- `UPDATER_PROTOCOL_DATA_SIZE`: maximum payload the protocol declares. -/
abbrev UPDATER_PROTOCOL_DATA_SIZE : Nat := 41

/-- `ESP32_TX_BUF_LEN`: fixed SPI transfer frame size. -/
abbrev ESP32_TX_BUF_LEN : Nat := 48

/-- Zero-fill a buffer to its fixed size, as the `memset(tx, 0, ...)`
before packet building leaves every unwritten byte zero. -/
def padTo (n : Nat) (l : List Nat) : List Nat :=
  l ++ List.replicate (n - l.length) 0

/-- The sync-prefix test at the top of `ESP32::sendCommand`:
`data && dataLen >= 2 && data[0] == 0xAA && data[1] == 0x55`. -/
def hasSyncPrefix (data : List Nat) : Prop :=
  2 ≤ data.length ∧ data.getD 0 0 = UPDATER_PROTOCOL_SYNC_BYTE_1 ∧
    data.getD 1 0 = UPDATER_PROTOCOL_SYNC_BYTE_2

instance (data : List Nat) : Decidable (hasSyncPrefix data) := by
  unfold hasSyncPrefix; infer_instance

/-- The 48-byte transmit frame `ESP32::sendCommand` builds.  A payload
that already carries the sync marker is forwarded verbatim
(`memcpy(tx, data, min(dataLen, 48))`); otherwise the header is written
with `tx[3] = dataLen` — the *original* length — while the copy is
`memcpy(&tx[4], data, min(dataLen, 48 - 4))`. -/
def sendCommandTx (cmd : Nat) (data : List Nat) : List Nat :=
  if hasSyncPrefix data then
    padTo ESP32_TX_BUF_LEN (data.take ESP32_TX_BUF_LEN)
  else
    padTo ESP32_TX_BUF_LEN
      ([UPDATER_PROTOCOL_SYNC_BYTE_1, UPDATER_PROTOCOL_SYNC_BYTE_2, cmd,
        data.length] ++
        data.take (ESP32_TX_BUF_LEN - UPDATER_PROTOCOL_HEADER_SIZE))

/-- Inbound dispatch `handleReceivedMessage(rxBuf)`: on a sync-marker
match, extract the command byte and the length byte, clamp the length to
`ESP32_TX_BUF_LEN - UPDATER_PROTOCOL_HEADER_SIZE`, and hand the callback
the total length `header + dataLen`.  Result is the `(command, totalLen)`
delivered, `none` when the marker does not match. -/
def handleReceivedMessage (rxBuf : List Nat) : Option (Nat × Nat) :=
  if rxBuf.getD 0 0 = UPDATER_PROTOCOL_SYNC_BYTE_1 ∧
      rxBuf.getD 1 0 = UPDATER_PROTOCOL_SYNC_BYTE_2 then
    some (rxBuf.getD 2 0,
      UPDATER_PROTOCOL_HEADER_SIZE +
        (if ESP32_TX_BUF_LEN - UPDATER_PROTOCOL_HEADER_SIZE < rxBuf.getD 3 0
         then ESP32_TX_BUF_LEN - UPDATER_PROTOCOL_HEADER_SIZE
         else rxBuf.getD 3 0))
  else none

/-! ### Transport claims -/

/-- C1 counterexample: a 45-byte payload (no sync prefix) exceeds the
44-byte frame capacity; only 44 bytes are copied, yet the LEN field
(byte 3) of the built frame is the caller's original 45 — not the
clamped length the claim requires. -/
theorem sendCommandTx_len_counterexample :
    (ESP32_TX_BUF_LEN - UPDATER_PROTOCOL_HEADER_SIZE <
      (List.replicate 45 7).length) ∧
    (sendCommandTx 1 (List.replicate 45 7)).getD 3 0 = 45 ∧
    (sendCommandTx 1 (List.replicate 45 7)).getD 3 0 ≠
      min (List.replicate 45 7).length
        (ESP32_TX_BUF_LEN - UPDATER_PROTOCOL_HEADER_SIZE) := by
  refine ⟨by decide, ?_, ?_⟩ <;> decide

/-- C1 (amended): for an oversized payload without the sync prefix, the
built frame's LEN field equals the caller's *original* length — never the
clamped one — while the copied payload is truncated to the 44-byte
capacity. -/
theorem sendCommandTx_len_field (cmd : Nat) (data : List Nat)
    (hbyte : data.length ≤ 255)
    (hsync : ¬hasSyncPrefix data)
    (hover : ESP32_TX_BUF_LEN - UPDATER_PROTOCOL_HEADER_SIZE < data.length) :
    sendCommandTx cmd data =
      [UPDATER_PROTOCOL_SYNC_BYTE_1, UPDATER_PROTOCOL_SYNC_BYTE_2, cmd,
        data.length] ++
        data.take (ESP32_TX_BUF_LEN - UPDATER_PROTOCOL_HEADER_SIZE) ∧
    (sendCommandTx cmd data).getD 3 0 = data.length ∧
    (sendCommandTx cmd data).getD 3 0 ≠
      ESP32_TX_BUF_LEN - UPDATER_PROTOCOL_HEADER_SIZE := by
  have hfull : sendCommandTx cmd data =
      [UPDATER_PROTOCOL_SYNC_BYTE_1, UPDATER_PROTOCOL_SYNC_BYTE_2, cmd,
        data.length] ++
        data.take (ESP32_TX_BUF_LEN - UPDATER_PROTOCOL_HEADER_SIZE) := by
    unfold sendCommandTx padTo
    rw [if_neg hsync]
    have htake : (data.take (ESP32_TX_BUF_LEN - UPDATER_PROTOCOL_HEADER_SIZE)).length
        = ESP32_TX_BUF_LEN - UPDATER_PROTOCOL_HEADER_SIZE := by
      rw [List.length_take]
      simp only [ESP32_TX_BUF_LEN, UPDATER_PROTOCOL_HEADER_SIZE] at hover ⊢
      omega
    rw [List.length_append, htake]
    norm_num
  refine ⟨hfull, ?_, ?_⟩
  · rw [hfull]; rfl
  · rw [hfull]
    show data.length ≠ ESP32_TX_BUF_LEN - UPDATER_PROTOCOL_HEADER_SIZE
    simp only [ESP32_TX_BUF_LEN, UPDATER_PROTOCOL_HEADER_SIZE] at hover ⊢
    omega

/-- C1 witness: the amended behavior on a concrete 45-byte payload. -/
theorem sendCommandTx_len_field_witness :
    (List.replicate 45 9).length ≤ 255 ∧
    ¬hasSyncPrefix (List.replicate 45 9) ∧
    ESP32_TX_BUF_LEN - UPDATER_PROTOCOL_HEADER_SIZE <
      (List.replicate 45 9).length ∧
    (sendCommandTx 2 (List.replicate 45 9)).getD 3 0 = 45 :=
  ⟨by decide, by decide, by decide,
   (sendCommandTx_len_field 2 (List.replicate 45 9) (by decide) (by decide)
     (by decide)).2.1⟩

/-- C4 counterexample: a received frame with the sync marker and length
byte 43 is passed onward with payload length 43 — within the 44-byte
clamp of the code but beyond the 41-byte maximum the claim states. -/
theorem handleReceivedMessage_41_counterexample :
    handleReceivedMessage [0xAA, 0x55, 0x80, 43] =
      some (0x80, UPDATER_PROTOCOL_HEADER_SIZE + 43) ∧
    UPDATER_PROTOCOL_DATA_SIZE < 43 := by
  refine ⟨?_, by decide⟩
  decide

/-- C4 (amended): for every sync-marked received buffer, the inbound
handler clamps the frame's length byte to
`ESP32_TX_BUF_LEN - UPDATER_PROTOCOL_HEADER_SIZE` = 44 bytes (the
transfer-buffer capacity minus the header), not to the protocol's 41-byte
maximum payload size: the payload length passed onward is
`min(length byte, 44)` and never exceeds 44. -/
theorem handleReceivedMessage_clamps (rxBuf : List Nat) (c t : Nat)
    (h : handleReceivedMessage rxBuf = some (c, t)) :
    t = UPDATER_PROTOCOL_HEADER_SIZE +
        min (rxBuf.getD 3 0) (ESP32_TX_BUF_LEN - UPDATER_PROTOCOL_HEADER_SIZE) ∧
    t - UPDATER_PROTOCOL_HEADER_SIZE ≤
      ESP32_TX_BUF_LEN - UPDATER_PROTOCOL_HEADER_SIZE := by
  unfold handleReceivedMessage at h
  split at h
  · injection h with h'
    injection h' with hc ht
    subst ht
    constructor
    · split <;> simp only [ESP32_TX_BUF_LEN, UPDATER_PROTOCOL_HEADER_SIZE,
        Nat.min_def] at * <;> split <;> omega
    · split <;> simp only [ESP32_TX_BUF_LEN, UPDATER_PROTOCOL_HEADER_SIZE]
        at * <;> omega
  · exact absurd h (by simp)

/-- C4 witness: the clamp evaluated on a concrete oversized length byte. -/
theorem handleReceivedMessage_clamps_witness :
    handleReceivedMessage [0xAA, 0x55, 0x90, 250] = some (0x90, 48) ∧
    48 - UPDATER_PROTOCOL_HEADER_SIZE ≤
      ESP32_TX_BUF_LEN - UPDATER_PROTOCOL_HEADER_SIZE :=
  ⟨by decide,
   (handleReceivedMessage_clamps [0xAA, 0x55, 0x90, 250] 0x90 48
     (by decide)).2⟩

/-! ## Co-processor driver (`FEHESP32.cpp`)

The link session state (the `FEHESP32::s_*` statics) is an explicit
record; the inbound dispatcher `handleMessage` and the state-mutating
commands become functions on it.  The RCS callback pointer is a code
pointer, not session data, and is not part of the record.  Inbound
`msg` is the framed buffer prefix of length `len` the transport hands the
callback, so `len` is `msg.length`.
-/

/-- Application/updater protocol command ids used by the dispatcher
(`UpdaterProtocol.h` / `ApplicationProtocol.h`). -/
abbrev CMD_PING : Nat := 0x01

abbrev CMD_WIFI_CONNECT : Nat := 0x10

abbrev CMD_WIFI_CONNECT_FAST : Nat := 0x11

abbrev RSP_ACK : Nat := 0x80

abbrev RSP_PONG : Nat := 0x82

abbrev NOTIFY_DEBUG : Nat := 0x83

abbrev NOTIFY_WIFI_CONNECTED : Nat := 0x91

abbrev NOTIFY_WIFI_FAILED : Nat := 0x92

abbrev NOTIFY_WIFI_DISCONNECTED : Nat := 0x93

abbrev RSP_PARTITION_VALID : Nat := 0xB0

abbrev NOTIFY_FLASH_PROGRESS : Nat := 0xB1

abbrev NOTIFY_FLASH_COMPLETE : Nat := 0xB2

abbrev NOTIFY_FLASH_FAILED : Nat := 0xB3

abbrev NOTIFY_RCS_CONNECTED : Nat := 0xC0

abbrev NOTIFY_RCS_DISCONNECTED : Nat := 0xC1

abbrev NOTIFY_RCS_DATA : Nat := 0xC2

abbrev RSP_BLE_STATUS : Nat := 0xC3

abbrev NOTIFY_BLE_CLIENT_EVENT : Nat := 0xC4

abbrev BLE_STATE_OFF : Nat := 0x00

abbrev BLE_STATE_ADVERTISING : Nat := 0x01

abbrev BLE_STATE_CONNECTED : Nat := 0x02

abbrev BLE_EVENT_CLIENT_CONNECTED : Nat := 0x01

abbrev BLE_EVENT_CLIENT_DISCONNECTED : Nat := 0x02

/-- `struct ESP32Version { major, minor, patch, partition }`. -/
structure ESP32Version where
  major : Nat
  minor : Nat
  patch : Nat
  partition : Nat
deriving DecidableEq, Repr

/-- The link session state: the `FEHESP32` static fields, named as in the
source. -/
structure FEHState where
  s_version : ESP32Version
  s_connected : Bool
  s_flashing : Bool
  s_flashComplete : Bool
  s_flashError : Bool
  s_flashErrorCode : Nat
  s_flashBytes : Nat
  s_flashTotal : Nat
  s_partitionValid : Bool
  s_validatedPartition : Nat
  s_lastAckedCmd : Nat
  s_wifiConnectResult : Bool
  s_wifiConnectSuccess : Bool
  s_rcsConnected : Bool
  s_bleState : Nat
deriving DecidableEq, Repr

namespace FEHESP32

/-- The static initializers of `FEHESP32.cpp` (lines 5–20). -/
def initState : FEHState where
  s_version := ⟨0, 0, 0, 0xFF⟩
  s_connected := false
  s_flashing := false
  s_flashComplete := false
  s_flashError := false
  s_flashErrorCode := 0
  s_flashBytes := 0
  s_flashTotal := 0
  s_partitionValid := false
  s_validatedPartition := 0xFF
  s_lastAckedCmd := 0x00
  s_wifiConnectResult := false
  s_wifiConnectSuccess := false
  s_rcsConnected := false
  s_bleState := BLE_STATE_OFF

/-- `FEHESP32::reset(factoryReset)`: after the hardware power cycle, the
listed fields are re-assigned their defaults.  `s_flashErrorCode`,
`s_flashBytes` and `s_flashTotal` do not appear in the source's
assignment list and keep their prior values.  The `factoryReset` argument
only drives the hardware strobe line. -/
def reset (factoryReset : Bool) (s : FEHState) : FEHState :=
  { s with
    s_version := ⟨0, 0, 0, 0xFF⟩
    s_connected := false
    s_flashing := false
    s_flashComplete := false
    s_flashError := false
    s_partitionValid := false
    s_validatedPartition := 0xFF
    s_lastAckedCmd := 0x00
    s_wifiConnectResult := false
    s_wifiConnectSuccess := false
    s_rcsConnected := false
    s_bleState := BLE_STATE_OFF }

/-- The little-endian `uint32_t` read of
`memcpy(&s_flashBytes, &data[off], 4)` on the AVR target. -/
def rdU32le (msg : List Nat) (off : Nat) : Nat :=
  msg.getD off 0 + 256 * (msg.getD (off + 1) 0 +
    256 * (msg.getD (off + 2) 0 + 256 * msg.getD (off + 3) 0))

/-- `case RSP_ACK` of the dispatcher: record the acknowledged command id
(`data[0]`, needing framed length 5). -/
def handleAck (s : FEHState) (msg : List Nat) : FEHState :=
  if 5 ≤ msg.length then { s with s_lastAckedCmd := msg.getD 4 0 } else s

/-- `case RSP_PONG`: store the four version bytes (framed length 8). -/
def handlePong (s : FEHState) (msg : List Nat) : FEHState :=
  if 8 ≤ msg.length then
    { s with s_version :=
        ⟨msg.getD 4 0, msg.getD 5 0, msg.getD 6 0, msg.getD 7 0⟩ }
  else s

/-- `case NOTIFY_WIFI_CONNECTED`. -/
def handleWifiUp (s : FEHState) : FEHState :=
  { s with s_connected := true, s_wifiConnectResult := true,
           s_wifiConnectSuccess := true }

/-- `case NOTIFY_WIFI_DISCONNECTED` and `case NOTIFY_WIFI_FAILED` (shared
fall-through body). -/
def handleWifiDown (s : FEHState) : FEHState :=
  { s with s_connected := false, s_wifiConnectResult := true,
           s_wifiConnectSuccess := false }

/-- `case NOTIFY_FLASH_PROGRESS`: two little-endian `uint32_t` (framed
length 12). -/
def handleFlashProgress (s : FEHState) (msg : List Nat) : FEHState :=
  if 12 ≤ msg.length then
    { s with s_flashBytes := rdU32le msg 4, s_flashTotal := rdU32le msg 8,
             s_flashing := true }
  else s

/-- `case NOTIFY_FLASH_COMPLETE`. -/
def handleFlashComplete (s : FEHState) : FEHState :=
  { s with s_flashing := false, s_flashComplete := true }

/-- `case NOTIFY_FLASH_FAILED`: the source sets `s_flashing = false` and
`s_flashError = true` *before* the length check; only the error-code byte
is guarded by framed length 5. -/
def handleFlashFailed (s : FEHState) (msg : List Nat) : FEHState :=
  if 5 ≤ msg.length then
    { s with s_flashing := false, s_flashError := true,
             s_flashErrorCode := msg.getD 4 0 }
  else { s with s_flashing := false, s_flashError := true }

/-- `case RSP_PARTITION_VALID` (framed length 5). -/
def handlePartitionValid (s : FEHState) (msg : List Nat) : FEHState :=
  if 5 ≤ msg.length then
    { s with s_partitionValid := true, s_validatedPartition := msg.getD 4 0 }
  else s

/-- `case RSP_BLE_STATUS` (framed length 5). -/
def handleBleStatus (s : FEHState) (msg : List Nat) : FEHState :=
  if 5 ≤ msg.length then { s with s_bleState := msg.getD 4 0 } else s

/-- `case NOTIFY_BLE_CLIENT_EVENT` (framed length 5). -/
def handleBleClientEvent (s : FEHState) (msg : List Nat) : FEHState :=
  if 5 ≤ msg.length then
    if msg.getD 4 0 = 0x01 then { s with s_bleState := BLE_STATE_CONNECTED }
    else if msg.getD 4 0 = 0x02 then
      { s with s_bleState := BLE_STATE_ADVERTISING }
    else s
  else s

/-- `FEHESP32::handleMessage(msg, len)`: the single inbound dispatch
table.  `msg` is the framed message prefix of length `len`
(`[SYNC][SYNC][CMD][LENGTH][DATA...]`); each `case` of the source switch
is one of the handler functions above; unmatched command ids fall through
unchanged.  `NOTIFY_DEBUG` (0x83) and `NOTIFY_RCS_DATA` (0xC2) only print
to Serial / invoke the data callback and leave the session state
untouched.  Command-id values are written as the literals of
`UpdaterProtocol.h` / `ApplicationProtocol.h`. -/
def handleMessage (s : FEHState) (msg : List Nat) : FEHState :=
  if msg.length < 4 then s
  else
    match msg.getD 2 0 with
    | 0x80 => handleAck s msg                       -- RSP_ACK
    | 0x82 => handlePong s msg                      -- RSP_PONG
    | 0x83 => s                                     -- NOTIFY_DEBUG
    | 0x91 => handleWifiUp s                        -- NOTIFY_WIFI_CONNECTED
    | 0x93 | 0x92 => handleWifiDown s               -- WIFI_DISCONNECTED/FAILED
    | 0xC0 => { s with s_rcsConnected := true }     -- NOTIFY_RCS_CONNECTED
    | 0xC1 => { s with s_rcsConnected := false }    -- NOTIFY_RCS_DISCONNECTED
    | 0xC2 => s                                     -- NOTIFY_RCS_DATA
    | 0xB1 => handleFlashProgress s msg             -- NOTIFY_FLASH_PROGRESS
    | 0xB2 => handleFlashComplete s                 -- NOTIFY_FLASH_COMPLETE
    | 0xB3 => handleFlashFailed s msg               -- NOTIFY_FLASH_FAILED
    | 0xB0 => handlePartitionValid s msg            -- RSP_PARTITION_VALID
    | 0xC3 => handleBleStatus s msg                 -- RSP_BLE_STATUS
    | 0xC4 => handleBleClientEvent s msg            -- NOTIFY_BLE_CLIENT_EVENT
    | _ => s

/-- An under-length ack leaves the state unchanged. -/
theorem handleAck_underLength (s : FEHState) (msg : List Nat)
    (h : ¬5 ≤ msg.length) : handleAck s msg = s := by
  unfold handleAck; rw [if_neg h]

/-- An under-length pong leaves the state unchanged. -/
theorem handlePong_underLength (s : FEHState) (msg : List Nat)
    (h : ¬8 ≤ msg.length) : handlePong s msg = s := by
  unfold handlePong; rw [if_neg h]

/-- An under-length flash-progress notification leaves the state
unchanged. -/
theorem handleFlashProgress_underLength (s : FEHState) (msg : List Nat)
    (h : ¬12 ≤ msg.length) : handleFlashProgress s msg = s := by
  unfold handleFlashProgress; rw [if_neg h]

/-- An under-length partition-validation response leaves the state
unchanged. -/
theorem handlePartitionValid_underLength (s : FEHState) (msg : List Nat)
    (h : ¬5 ≤ msg.length) : handlePartitionValid s msg = s := by
  unfold handlePartitionValid; rw [if_neg h]

/-- An under-length BLE-status response leaves the state unchanged. -/
theorem handleBleStatus_underLength (s : FEHState) (msg : List Nat)
    (h : ¬5 ≤ msg.length) : handleBleStatus s msg = s := by
  unfold handleBleStatus; rw [if_neg h]

/-- An under-length BLE-client-event notification leaves the state
unchanged. -/
theorem handleBleClientEvent_underLength (s : FEHState) (msg : List Nat)
    (h : ¬5 ≤ msg.length) : handleBleClientEvent s msg = s := by
  unfold handleBleClientEvent; rw [if_neg h]

/-- An under-length flash-failed notification still sets the two flags —
only the error-code byte is skipped. -/
theorem handleFlashFailed_underLength (s : FEHState) (msg : List Nat)
    (h : ¬5 ≤ msg.length) :
    handleFlashFailed s msg =
      { s with s_flashing := false, s_flashError := true } := by
  unfold handleFlashFailed; rw [if_neg h]

end FEHESP32

/-! ### Driver claims: reset (C2) -/

/-- C2 counterexample: a prior state with a recorded flash error code 5
does not return to the all-default state on `FEHESP32::reset` — the error
code (and likewise the flash byte counters) survives the reset, so not
every field equals its initialization default. -/
theorem reset_counterexample :
    FEHESP32.reset true { FEHESP32.initState with s_flashErrorCode := 5 } ≠
      FEHESP32.initState ∧
    (FEHESP32.reset true
      { FEHESP32.initState with s_flashErrorCode := 5 }).s_flashErrorCode = 5 := by
  refine ⟨?_, by decide⟩
  decide

/-- C2 (amended): after `FEHESP32::reset`, every link-session field
*except* the flash byte counter, the flash total and the flash error code
equals its initialization default, for every prior state; those three
fields keep their prior values. -/
theorem reset_restores_defaults (factoryReset : Bool) (s : FEHState) :
    FEHESP32.reset factoryReset s =
      { FEHESP32.initState with
          s_flashErrorCode := s.s_flashErrorCode
          s_flashBytes := s.s_flashBytes
          s_flashTotal := s.s_flashTotal } := rfl

/-! ### Driver claims: under-length payloads (C3) -/

/-- The minimum framed length (header + fixed payload fields) each
state-mutating command id of the dispatcher claims to carry; commands with
no fixed payload fields only need the 4-byte header. -/
def requiredLen (cmd : Nat) : Nat :=
  match cmd with
  | 0x80 => 5    -- RSP_ACK: acked command id byte
  | 0x82 => 8    -- RSP_PONG: four version bytes
  | 0xB1 => 12   -- NOTIFY_FLASH_PROGRESS: two uint32 fields
  | 0xB3 => 5    -- NOTIFY_FLASH_FAILED: error code byte
  | 0xB0 => 5    -- RSP_PARTITION_VALID: partition byte
  | 0xC3 => 5    -- RSP_BLE_STATUS: state byte
  | 0xC4 => 5    -- NOTIFY_BLE_CLIENT_EVENT: event byte
  | _ => 4

/-- C3 counterexample: a flash-failed notification truncated before its
error-code byte (framed length 4 < 5) still mutates the session state —
`s_flashing` is cleared and `s_flashError` set before the length check —
so the dispatcher does *not* leave the state unchanged on every
under-length payload. -/
theorem handleMessage_underlength_counterexample :
    ([0xAA, 0x55, 0xB3, 0] : List Nat).length <
      requiredLen (([0xAA, 0x55, 0xB3, 0] : List Nat).getD 2 0) ∧
    FEHESP32.handleMessage { FEHESP32.initState with s_flashing := true }
      [0xAA, 0x55, 0xB3, 0] ≠
      { FEHESP32.initState with s_flashing := true } := by
  refine ⟨by decide, ?_⟩
  decide

set_option maxHeartbeats 1000000 in
/-- C3 (amended): an inbound framed message whose length is below what its
command id's fixed fields require leaves the session state unchanged for
every command id *except* `NOTIFY_FLASH_FAILED`; an under-length
flash-failed notification still clears `s_flashing` and sets
`s_flashError`, only skipping the error-code byte. -/
theorem handleMessage_underlength (s : FEHState) (msg : List Nat)
    (hlt : msg.length < requiredLen (msg.getD 2 0)) :
    (msg.getD 2 0 ≠ NOTIFY_FLASH_FAILED →
      FEHESP32.handleMessage s msg = s) ∧
    (msg.getD 2 0 = NOTIFY_FLASH_FAILED → 4 ≤ msg.length →
      FEHESP32.handleMessage s msg =
        { s with s_flashing := false, s_flashError := true }) := by
  constructor
  · intro hne
    have hne3 : msg.getD 2 0 ≠ 0xB3 := hne
    unfold requiredLen at hlt
    unfold FEHESP32.handleMessage
    by_cases h4 : msg.length < 4
    · rw [if_pos h4]
    · rw [if_neg h4]
      split at hlt <;>
        first
          | (exfalso; omega)
          | (simp only [*]
             first
               | rfl
               | exact FEHESP32.handleAck_underLength s msg (by omega)
               | exact FEHESP32.handlePong_underLength s msg (by omega)
               | exact FEHESP32.handleFlashProgress_underLength s msg (by omega)
               | exact FEHESP32.handlePartitionValid_underLength s msg (by omega)
               | exact FEHESP32.handleBleStatus_underLength s msg (by omega)
               | exact FEHESP32.handleBleClientEvent_underLength s msg (by omega))
  · intro heq h4
    have heq3 : msg.getD 2 0 = 0xB3 := heq
    rw [heq3] at hlt
    have h5 : msg.length < 5 := hlt
    unfold FEHESP32.handleMessage
    rw [if_neg (show ¬msg.length < 4 by omega), heq3]
    exact FEHESP32.handleFlashFailed_underLength s msg (by omega)

/-- C3 witness: a truncated ack (framed length 4, missing the acked
command id byte) leaves a concrete state unchanged. -/
theorem handleMessage_underlength_witness :
    ([0xAA, 0x55, 0x80, 0] : List Nat).length <
      requiredLen (([0xAA, 0x55, 0x80, 0] : List Nat).getD 2 0) ∧
    FEHESP32.handleMessage FEHESP32.initState [0xAA, 0x55, 0x80, 0] =
      FEHESP32.initState :=
  ⟨by decide,
   (handleMessage_underlength FEHESP32.initState [0xAA, 0x55, 0x80, 0]
     (by decide)).1 (by decide)⟩

/-! ### Driver claims: ack waiting (C9)

`FEHESP32::waitForAck` busy-polls the transport.  The model abstracts the
timing loop to the list of poll outcomes the transport delivers while the
timeout allows iterations: one entry per loop iteration, `none` when the
exchange carried nothing, `some msg` when it delivered a framed message
(the transport hands at most one message per exchange to the dispatcher).
-/

namespace FEHESP32

/-- One `poll()` inside the wait loop: a delivered framed message runs
through the dispatcher, an empty exchange leaves the state alone. -/
def pollStep (s : FEHState) : Option (List Nat) → FEHState
  | none => s
  | some msg => handleMessage s msg

/-- The `while (millis() - startTime < timeoutMs)` loop of
`FEHESP32::waitForAck`: poll, then return `true` as soon as the last-acked
slot equals `cmdId`; give up when the permitted iterations are exhausted. -/
def waitForAckLoop (cmdId : Nat) :
    FEHState → List (Option (List Nat)) → Bool × FEHState
  | s, [] => (false, s)
  | s, p :: rest =>
    if (pollStep s p).s_lastAckedCmd = cmdId then (true, pollStep s p)
    else waitForAckLoop cmdId (pollStep s p) rest

/-- `FEHESP32::waitForAck(cmdId, timeoutMs)`: the slot is reset to `0x00`
before the first poll (`s_lastAckedCmd = 0x00;`), then the loop runs. -/
def waitForAck (s : FEHState) (cmdId : Nat)
    (polls : List (Option (List Nat))) : Bool × FEHState :=
  waitForAckLoop cmdId { s with s_lastAckedCmd := 0x00 } polls

/-- A poll outcome that is an ack notification carrying exactly `cmdId`:
an `RSP_ACK` frame long enough to carry the acked id. -/
def isAckFor : Option (List Nat) → Nat → Prop
  | none, _ => False
  | some msg, cmdId =>
    5 ≤ msg.length ∧ msg.getD 2 0 = 0x80 ∧ msg.getD 4 0 = cmdId

instance : (p : Option (List Nat)) → (c : Nat) → Decidable (isAckFor p c)
  | none, _ => isFalse (fun h => h)
  | some _, _ => inferInstanceAs (Decidable (_ ∧ _ ∧ _))

/-- An ack with the required length overwrites the slot with the acked
command id. -/
theorem handleMessage_slot_set (s : FEHState) (msg : List Nat)
    (h5 : 5 ≤ msg.length) (hc : msg.getD 2 0 = 0x80) :
    (handleMessage s msg).s_lastAckedCmd = msg.getD 4 0 := by
  unfold handleMessage
  rw [if_neg (show ¬msg.length < 4 by omega), hc]
  show (handleAck s msg).s_lastAckedCmd = msg.getD 4 0
  unfold handleAck
  rw [if_pos h5]

/-- No message other than a well-formed ack touches the last-acked slot. -/
theorem handleMessage_slot_unchanged (s : FEHState) (msg : List Nat)
    (h : ¬(5 ≤ msg.length ∧ msg.getD 2 0 = 0x80)) :
    (handleMessage s msg).s_lastAckedCmd = s.s_lastAckedCmd := by
  unfold handleMessage
  by_cases h4 : msg.length < 4
  · rw [if_pos h4]
  · rw [if_neg h4]
    split <;>
      first
        | rfl
        | (unfold handleAck; rw [if_neg (show ¬5 ≤ msg.length by omega)])
        | (simp only [handlePong, handleFlashProgress, handleFlashFailed,
            handlePartitionValid, handleBleStatus, handleBleClientEvent]
           repeat' split
           all_goals rfl)

/-- If a poll changed the last-acked slot, the poll delivered an ack for
exactly the new slot value. -/
theorem pollStep_slot_change (s : FEHState) (p : Option (List Nat))
    (h : (pollStep s p).s_lastAckedCmd ≠ s.s_lastAckedCmd) :
    isAckFor p ((pollStep s p).s_lastAckedCmd) := by
  cases p with
  | none => exact absurd rfl h
  | some msg =>
    by_cases hac : 5 ≤ msg.length ∧ msg.getD 2 0 = 0x80
    · exact ⟨hac.1, hac.2, (handleMessage_slot_set s msg hac.1 hac.2).symm⟩
    · exact absurd (handleMessage_slot_unchanged s msg hac) h

/-- Loop characterization: starting from a state whose slot does not
already equal `cmdId`, the wait loop reports success exactly when one of
its polls delivers an ack carrying `cmdId`. -/
theorem waitForAckLoop_iff (cmdId : Nat) :
    ∀ (polls : List (Option (List Nat))) (s : FEHState),
    s.s_lastAckedCmd ≠ cmdId →
    ((waitForAckLoop cmdId s polls).1 = true ↔
      ∃ p ∈ polls, isAckFor p cmdId) := by
  intro polls
  induction polls with
  | nil =>
    intro s _
    simp [waitForAckLoop]
  | cons p rest ih =>
    intro s h
    unfold waitForAckLoop
    by_cases h1 : (pollStep s p).s_lastAckedCmd = cmdId
    · rw [if_pos h1]
      simp only [List.mem_cons]
      constructor
      · intro _
        refine ⟨p, Or.inl rfl, ?_⟩
        have hch : (pollStep s p).s_lastAckedCmd ≠ s.s_lastAckedCmd := by
          rw [h1]; exact fun hc => h hc.symm
        have hack := pollStep_slot_change s p hch
        rwa [h1] at hack
      · intro _; trivial
    · rw [if_neg h1]
      rw [ih (pollStep s p) h1]
      simp only [List.mem_cons]
      constructor
      · rintro ⟨q, hq, hack⟩
        exact ⟨q, Or.inr hq, hack⟩
      · rintro ⟨q, hq | hq, hack⟩
        · subst hq
          exfalso
          cases q with
          | none => exact hack
          | some msg =>
            rcases hack with ⟨hl, hc, hv⟩
            refine h1 ?_
            show (handleMessage s msg).s_lastAckedCmd = cmdId
            rw [handleMessage_slot_set s msg hl hc, hv]
        · exact ⟨q, hq, hack⟩

end FEHESP32

/-- C9 counterexample: for `cmdId = 0x00` the reset slot itself matches,
so `waitForAck` reports success on the very first poll although no ack
notification was processed at all — the "if and only if" of the claim
fails at `cmdId = 0x00`. -/
theorem waitForAck_zero_counterexample :
    (FEHESP32.waitForAck FEHESP32.initState 0x00 [none]).1 = true ∧
    ¬FEHESP32.isAckFor none 0x00 :=
  ⟨rfl, fun h => h⟩

/-- C9 (amended): `waitForAck` clears the last-acked slot to `0x00` before
its first poll, and for every `cmdId ≠ 0x00` it returns `true` exactly
when one of the polls the timeout admits delivers an ack notification
carrying `cmdId` — so a stale ack recorded before the call never yields an
immediate false positive.  (At `cmdId = 0x00` the reset value itself
matches and the equivalence fails.) -/
theorem waitForAck_resets_and_matches (s : FEHState) (cmdId : Nat)
    (polls : List (Option (List Nat))) (h : cmdId ≠ 0x00) :
    FEHESP32.waitForAck s cmdId polls =
      FEHESP32.waitForAckLoop cmdId { s with s_lastAckedCmd := 0x00 } polls ∧
    ((FEHESP32.waitForAck s cmdId polls).1 = true ↔
      ∃ p ∈ polls, FEHESP32.isAckFor p cmdId) :=
  ⟨rfl, FEHESP32.waitForAckLoop_iff cmdId polls _ (fun hc => h hc.symm)⟩

/-- C9 witness: waiting for command 0x01 succeeds exactly on an ack frame
for 0x01. -/
theorem waitForAck_resets_and_matches_witness :
    (0x01 : Nat) ≠ 0x00 ∧
    (FEHESP32.waitForAck FEHESP32.initState 0x01
      [some [0xAA, 0x55, 0x80, 0x01, 0x01]]).1 = true :=
  ⟨by decide,
   (waitForAck_resets_and_matches FEHESP32.initState 0x01
       [some [0xAA, 0x55, 0x80, 0x01, 0x01]] (by decide)).2.mpr
     ⟨some [0xAA, 0x55, 0x80, 0x01, 0x01], by simp, by decide⟩⟩

/-! ### Driver claims: WiFi connect guards (C10) -/

namespace FEHESP32

/-- `FEHESP32::connectWifi(ssid, password)`: strings are byte lists
(`strlen` = list length).  Returns the single `(command, payload)` passed
to `ESP32::sendCommand`, or `none` when the guard rejects the call before
any transport activity.  Payload layout:
`[ssidLen][ssid...][passLen][password...]`. -/
def connectWifi (ssid password : List Nat) : Option (Nat × List Nat) :=
  if 16 < ssid.length ∨ 16 < password.length then none
  else some (0x10,                                  -- CMD_WIFI_CONNECT
    [ssid.length] ++ ssid ++ [password.length] ++ password)

/-- `FEHESP32::connectWifiFast(ssid, password, bssid, channel)`: as
`connectWifi` but also rejecting a null `bssid`, and appending the 6-byte
BSSID and the channel byte.  Payload layout:
`[ssidLen][ssid...][passLen][password...][bssid:6][channel]`. -/
def connectWifiFast (ssid password : List Nat) (bssid : Option (List Nat))
    (channel : Nat) : Option (Nat × List Nat) :=
  if 16 < ssid.length ∨ 16 < password.length ∨ bssid = none then none
  else some (0x11,                                  -- CMD_WIFI_CONNECT_FAST
    [ssid.length] ++ ssid ++ [password.length] ++ password ++
      (bssid.getD []).take 6 ++ [channel])

end FEHESP32

/-- C10: `connectWifi` and `connectWifiFast` send nothing and report
failure exactly when the ssid or password exceeds 16 bytes (or, for the
fast variant, when the bssid pointer is null); otherwise each sends
exactly one connect command with its respective command id. -/
theorem connectWifi_guards (ssid password : List Nat)
    (bssid : Option (List Nat)) (channel : Nat) :
    (FEHESP32.connectWifi ssid password = none ↔
      16 < ssid.length ∨ 16 < password.length) ∧
    (∀ c p, FEHESP32.connectWifi ssid password = some (c, p) →
      c = CMD_WIFI_CONNECT) ∧
    (FEHESP32.connectWifiFast ssid password bssid channel = none ↔
      16 < ssid.length ∨ 16 < password.length ∨ bssid = none) ∧
    (∀ c p, FEHESP32.connectWifiFast ssid password bssid channel =
        some (c, p) → c = CMD_WIFI_CONNECT_FAST) := by
  refine ⟨?_, ?_, ?_, ?_⟩
  · unfold FEHESP32.connectWifi
    split_ifs with hc <;> simp [hc]
  · intro c p
    unfold FEHESP32.connectWifi
    split_ifs with hc
    · intro hx; exact absurd hx (by simp)
    · intro hx
      injection hx with hx'
      injection hx' with hc' _
      exact hc'.symm
  · unfold FEHESP32.connectWifiFast
    split_ifs with hc <;> simp [hc]
  · intro c p
    unfold FEHESP32.connectWifiFast
    split_ifs with hc
    · intro hx; exact absurd hx (by simp)
    · intro hx
      injection hx with hx'
      injection hx' with hc' _
      exact hc'.symm

/-- C10 witness: an in-range pair sends the standard connect command; a
17-byte ssid is rejected by the fast variant without sending. -/
theorem connectWifi_guards_witness :
    FEHESP32.connectWifi [65] [66] = some (0x10, [1, 65, 1, 66]) ∧
    (0x10 : Nat) = CMD_WIFI_CONNECT ∧
    FEHESP32.connectWifiFast (List.replicate 17 65) [] (some [1, 2, 3, 4, 5, 6]) 7 = none :=
  ⟨by decide,
   (connectWifi_guards [65] [66] none 0).2.1 0x10 [1, 65, 1, 66] (by decide),
   (connectWifi_guards (List.replicate 17 65) [] (some [1, 2, 3, 4, 5, 6]) 7).2.2.1.mpr
     (Or.inl (by decide))⟩
